import Mathlib

/-!
Verification of the MindSensor BLE telemetry core: frame decoder
(`src/utils/sensorParser.ts`), frame reassembler and connection manager
(`src/bluetooth/mindsensor.ts`), and telemetry store
(`src/store/monitorStore.ts`), shallowly embedded in Lean.

Bytes of a `Uint8Array` are modelled as `Fin 256`; JavaScript numbers
produced by the decoder are modelled as exact rationals/integers
(`Math.round x` = `⌊x + 1/2⌋` for the finite non-negative values that
occur here); `Date.now()` is an explicit `now : ℕ` argument; `undefined`
fields are `Option`; JavaScript truthiness of an optional number
(`undefined` and `0` are falsy) is modelled explicitly.
-/

namespace MindSensor

abbrev Byte := Fin 256

/-- `Math.round` for a finite non-negative JS number: `⌊q + 1/2⌋`. -/
def jsRound (q : ℚ) : ℤ := ⌊q + 1 / 2⌋

/-- `get3` from `sensorParser.ts`: big-endian integer from 3 bytes,
`(arr[idx] << 16) + (arr[idx+1] << 8) + arr[idx+2]`. Out-of-range access
(which the decoder's length guards prevent) defaults to 0. -/
def get3 (arr : List Byte) (idx : Nat) : Nat :=
  (arr.getD idx 0).val * 65536 + (arr.getD (idx + 1) 0).val * 256 + (arr.getD (idx + 2) 0).val

/-- `SensorData1` from `types/bluetooth.ts`: the first-segment frame. -/
structure SensorData1 where
  sq : ℤ
  focus : ℤ
  relax : ℤ
  delta : ℤ
  theta : ℤ
  lowAlpha : ℤ
  highAlpha : ℤ
deriving DecidableEq

/-- `SensorData2` from `types/bluetooth.ts`: the second-segment frame. -/
structure SensorData2 where
  lowBeta : ℤ
  highBeta : ℤ
  lowGamma : ℤ
  highGamma : ℤ
deriving DecidableEq

/-- `SensorData = SensorData1 & SensorData2`: the merged full sample. -/
structure SensorData where
  sq : ℤ
  focus : ℤ
  relax : ℤ
  delta : ℤ
  theta : ℤ
  lowAlpha : ℤ
  highAlpha : ℤ
  lowBeta : ℤ
  highBeta : ℤ
  lowGamma : ℤ
  highGamma : ℤ
deriving DecidableEq

/-- Result of a successful decode: the TS return type
`SensorData1 | SensorData2` (with `null` modelled by `Option`). -/
inductive Decoded where
  | seg1 : SensorData1 → Decoded
  | seg2 : SensorData2 → Decoded
deriving DecidableEq

/-- The first-segment case's hex tag `'aa01010f'`: on `Fin 256` bytes,
equality of the lowercase hex string of the first four bytes with
`'aa01010f'` is exactly equality of the four bytes with these
constants. -/
def isFirstHeader (d : List Byte) : Prop :=
  d.getD 0 0 = 0xAA ∧ d.getD 1 0 = 0x01 ∧ d.getD 2 0 = 0x01 ∧ d.getD 3 0 = 0x0F

/-- The second-segment case's hex tag `'aa01020c'`. -/
def isSecondHeader (d : List Byte) : Prop :=
  d.getD 0 0 = 0xAA ∧ d.getD 1 0 = 0x01 ∧ d.getD 2 0 = 0x02 ∧ d.getD 3 0 = 0x0C

instance (d : List Byte) : Decidable (isFirstHeader d) := by
  unfold isFirstHeader; infer_instance

instance (d : List Byte) : Decidable (isSecondHeader d) := by
  unfold isSecondHeader; infer_instance

/-- The object literal returned in the `'aa01010f'` case of
`getSensorData`. -/
def decodeFirst (d : List Byte) : SensorData1 :=
  { sq := (d.getD 4 0).val
    focus := (d.getD 5 0).val
    relax := (d.getD 6 0).val
    delta := jsRound ((get3 d 7 : ℚ) / 50 * 3)
    theta := jsRound ((get3 d 10 : ℚ) / 3)
    lowAlpha := get3 d 13
    highAlpha := get3 d 16 }

/-- The object literal returned in the `'aa01020c'` case of
`getSensorData`. -/
def decodeSecond (d : List Byte) : SensorData2 :=
  { lowBeta := get3 d 4
    highBeta := get3 d 7
    lowGamma := get3 d 10
    highGamma := get3 d 13 }

/-- `getSensorData` from `sensorParser.ts`. -/
def getSensorData (d : List Byte) : Option Decoded :=
  if d.length < 4 then
    none
  else if isFirstHeader d then
    if d.length < 19 then none else some (.seg1 (decodeFirst d))
  else if isSecondHeader d then
    if d.length < 16 then none else some (.seg2 (decodeSecond d))
  else
    none

/-- The object spread `{ ...part1, ...data }` in
`handleCharacteristicValueChanged`: the field names of `SensorData1` and
`SensorData2` are disjoint, so the merge keeps all 11 fields. -/
def mergeSamples (p : SensorData1) (s : SensorData2) : SensorData :=
  { sq := p.sq, focus := p.focus, relax := p.relax, delta := p.delta, theta := p.theta
    lowAlpha := p.lowAlpha, highAlpha := p.highAlpha
    lowBeta := s.lowBeta, highBeta := s.highBeta
    lowGamma := s.lowGamma, highGamma := s.highGamma }

/-- The spec's big-endian 3-byte unsigned integer `(b0<<16)+(b1<<8)+b2`
(§4.1), written from the spec's words for the refinement statement of the
decoder claims. -/
def uint24 (d : List Byte) (i : Nat) : Nat :=
  (d.getD i 0).val * 2 ^ 16 + (d.getD (i + 1) 0).val * 2 ^ 8 + (d.getD (i + 2) 0).val

/-- The first-segment field formulas exactly as §4.1 of the spec states
them: signal-quality = byte[4]; focus = byte[5]; relax = byte[6];
delta = round(uint24(bytes[7..10]) / 50 × 3); theta =
round(uint24(bytes[10..13]) / 3); lowAlpha = uint24(bytes[13..16]);
highAlpha = uint24(bytes[16..19]). -/
def specFirstSegment (d : List Byte) : SensorData1 :=
  { sq := (d.getD 4 0).val
    focus := (d.getD 5 0).val
    relax := (d.getD 6 0).val
    delta := jsRound ((uint24 d 7 : ℚ) / 50 * 3)
    theta := jsRound ((uint24 d 10 : ℚ) / 3)
    lowAlpha := uint24 d 13
    highAlpha := uint24 d 16 }

example : jsRound ((100 : ℚ) / 50 * 3) = 6 := by norm_num [jsRound]
example : jsRound ((30 : ℚ) / 3) = 10 := by norm_num [jsRound]

/-! ## Telemetry store (`src/store/monitorStore.ts`) -/

/-- `ConnectionState` from `monitorStore.ts`. -/
inductive ConnState where
  | idle
  | scanning
  | connecting
  | connected
deriving DecidableEq

/-- The part of a `BluetoothDevice` the core reads: `id`, optional
`name`, and whether the optional `gatt` server object is present. -/
structure Device where
  id : String
  name : Option String
  hasGatt : Bool
deriving DecidableEq

/-- `DataPoint` from `types/bluetooth.ts`: `{t, focus, relax}`. -/
structure DataPoint where
  t : ℕ
  focus : ℤ
  relax : ℤ
deriving DecidableEq

/-- `SeriesData` from `types/bluetooth.ts`: ten parallel series. -/
structure SeriesData where
  focus : List ℤ
  relax : List ℤ
  delta : List ℤ
  theta : List ℤ
  lowAlpha : List ℤ
  highAlpha : List ℤ
  lowBeta : List ℤ
  highBeta : List ℤ
  lowGamma : List ℤ
  highGamma : List ℤ
deriving DecidableEq

/-- `initialSeriesData` from `monitorStore.ts`. -/
def initialSeriesData : SeriesData :=
  { focus := [], relax := [], delta := [], theta := [], lowAlpha := [], highAlpha := []
    lowBeta := [], highBeta := [], lowGamma := [], highGamma := [] }

/-- The state fields of `useMonitorStore`. `undefined`-able fields
(`connectingId`, `connected`, `lastDataTs`, `recordStartTime`) are
`Option`. -/
structure MonitorState where
  connectionState : ConnState
  scanning : Bool
  devices : List Device
  connectingId : Option String
  connected : Option Device
  lastDataTs : Option ℕ
  possibleDrop : Bool
  wearOk : Bool
  focus : ℤ
  relax : ℤ
  currentSensor : Option SensorData
  isRecording : Bool
  recordStartTime : Option ℕ
  samples : List DataPoint
  series : SeriesData
deriving DecidableEq

/-- The initial store state from `create(...)` in `monitorStore.ts`. -/
def initialState : MonitorState :=
  { connectionState := .idle, scanning := false, devices := []
    connectingId := none, connected := none, lastDataTs := none
    possibleDrop := false, wearOk := false, focus := 0, relax := 0
    currentSensor := none, isRecording := false, recordStartTime := none
    samples := [], series := initialSeriesData }

/-- JS truthiness of an optional number: `undefined` and `0` are falsy. -/
def jsTruthyNum : Option ℕ → Bool
  | none => false
  | some t => t != 0

/-- JS truthiness of an optional string: `undefined` and `''` are falsy. -/
def jsTruthyStr : Option String → Bool
  | none => false
  | some s => s != ""

/-- JS `a || b` on optional objects (an object is always truthy). -/
def jsOrDevice : Option Device → Option Device → Option Device
  | some x, _ => some x
  | none, b => b

/-- `setScanning` from `monitorStore.ts`. -/
def setScanning (s : MonitorState) (scanning : Bool) : MonitorState :=
  { s with
    scanning := scanning
    connectionState :=
      if scanning then .scanning else if s.connected.isSome then .connected else .idle }

/-- `setConnecting` from `monitorStore.ts`: note that when `deviceId`
is falsy the `connectionState` is left at its current value. -/
def setConnecting (s : MonitorState) (deviceId : Option String) : MonitorState :=
  { s with
    connectingId := deviceId
    connectionState := if jsTruthyStr deviceId then .connecting else s.connectionState }

/-- `setConnected` from `monitorStore.ts`. -/
def setConnected (s : MonitorState) (device : Option Device) : MonitorState :=
  { s with
    connected := device
    connectingId := none
    connectionState := if device.isSome then .connected else .idle
    possibleDrop := false }

/-- `onSensorData1` from `monitorStore.ts`; `now` is `Date.now()`. -/
def onSensorData1 (s : MonitorState) (sq focus relax : ℤ) (now : ℕ) : MonitorState :=
  { s with
    wearOk := sq == 0
    focus := focus
    relax := relax
    lastDataTs := some now
    possibleDrop := false }

/-- `onFullSensorData` from `monitorStore.ts`; `now` is `Date.now()`. -/
def onFullSensorData (s : MonitorState) (data : SensorData) (now : ℕ) : MonitorState :=
  let s₁ : MonitorState :=
    { s with
      currentSensor := some data
      lastDataTs := some now
      possibleDrop := false
      focus := data.focus
      relax := data.relax }
  if s.isRecording then
    { s₁ with
      samples := s.samples ++ [{ t := now, focus := data.focus, relax := data.relax }]
      series :=
        { focus := s.series.focus ++ [data.focus]
          relax := s.series.relax ++ [data.relax]
          delta := s.series.delta ++ [data.delta]
          theta := s.series.theta ++ [data.theta]
          lowAlpha := s.series.lowAlpha ++ [data.lowAlpha]
          highAlpha := s.series.highAlpha ++ [data.highAlpha]
          lowBeta := s.series.lowBeta ++ [data.lowBeta]
          highBeta := s.series.highBeta ++ [data.highBeta]
          lowGamma := s.series.lowGamma ++ [data.lowGamma]
          highGamma := s.series.highGamma ++ [data.highGamma] } }
  else s₁

/-- `checkDropConnection` from `monitorStore.ts`; `now` is `Date.now()`.
The guard is `connected && lastDataTs && Date.now() - lastDataTs > 3000`
(`lastDataTs` is truthy only when present and nonzero). -/
def checkDropConnection (s : MonitorState) (now : ℕ) : MonitorState :=
  if s.connected.isSome && jsTruthyNum s.lastDataTs
      && decide (now - (s.lastDataTs.getD 0) > 3000) then
    { s with possibleDrop := true }
  else s

/-- `startRecord` from `monitorStore.ts`; `now` is `Date.now()`. -/
def startRecord (s : MonitorState) (now : ℕ) : MonitorState :=
  { s with isRecording := true, recordStartTime := some now }

/-- `stopRecord` from `monitorStore.ts`. -/
def stopRecord (s : MonitorState) : MonitorState :=
  { s with isRecording := false }

/-- `clearData` from `monitorStore.ts`. -/
def clearData (s : MonitorState) : MonitorState :=
  { s with
    samples := []
    series := initialSeriesData
    recordStartTime := none
    currentSensor := none }

/-- `disconnect` from `monitorStore.ts`. -/
def storeDisconnect (s : MonitorState) : MonitorState :=
  { s with
    connected := none
    connectionState := .idle
    possibleDrop := false
    isRecording := false }

/-- `reset` from `monitorStore.ts`. -/
def reset (_s : MonitorState) : MonitorState :=
  { connectionState := .idle, scanning := false, devices := []
    connectingId := none, connected := none, lastDataTs := none
    possibleDrop := false, wearOk := false, focus := 0, relax := 0
    currentSensor := none, isRecording := false, recordStartTime := none
    samples := [], series := initialSeriesData }

/-! ## Reassembler and connection manager (`src/bluetooth/mindsensor.ts`) -/

/-- The module-level packet state of `mindsensor.ts`:
`let part1: SensorData1 | undefined` and `let isHalf = false`. -/
structure ModuleState where
  part1 : Option SensorData1
  isHalf : Bool
deriving DecidableEq

/-- A call the reassembler makes into the telemetry store. -/
inductive StoreEvent where
  | sensorData1 (sq focus relax : ℤ)
  | fullSensorData (data : SensorData)
deriving DecidableEq

/-- Whether a store event publishes a full sample. -/
def StoreEvent.isFull : StoreEvent → Bool
  | .fullSensorData _ => true
  | _ => false

/-- `handleCharacteristicValueChanged` from `mindsensor.ts`, as a
function of the module packet state and the notification bytes,
returning the new packet state and the store calls it makes. The TS
`'sq' in data` test distinguishing the segment kinds is the `Decoded`
tag. -/
def handleCharacteristicValueChanged (m : ModuleState) (bytes : List Byte) :
    ModuleState × List StoreEvent :=
  match getSensorData bytes with
  | none => (m, [])
  | some (.seg1 d) =>
      ({ part1 := some d, isHalf := true }, [.sensorData1 d.sq d.focus d.relax])
  | some (.seg2 d) =>
      if m.isHalf then
        match m.part1 with
        | some p =>
            ({ part1 := none, isHalf := false }, [.fullSensorData (mergeSamples p d)])
        | none => (m, [])
      else (m, [])

/-- Applying one reassembler store call to the store; `now` is the
`Date.now()` observed inside the store action. -/
def applyEvent (s : MonitorState) (e : StoreEvent) (now : ℕ) : MonitorState :=
  match e with
  | .sensorData1 sq focus relax => onSensorData1 s sq focus relax now
  | .fullSensorData data => onFullSensorData s data now

/-- `handleDisconnect` from `mindsensor.ts`: `store.disconnect()` then
reset of the packet state. -/
def handleDisconnect (_m : ModuleState) (s : MonitorState) : ModuleState × MonitorState :=
  (⟨none, false⟩, storeDisconnect s)

/-- `disconnectDevice` from `mindsensor.ts`. `deviceArg` is the optional
`device` parameter; `device || store.connected` picks the target, and
`!targetDevice || !targetDevice.gatt` returns early with no state
change. The platform calls (`removeEventListener`, `gatt.disconnect()`)
do not touch the modelled state. -/
def disconnectDevice (deviceArg : Option Device) (m : ModuleState) (s : MonitorState) :
    ModuleState × MonitorState :=
  match jsOrDevice deviceArg s.connected with
  | some target =>
      if target.hasGatt then (⟨none, false⟩, storeDisconnect s) else (m, s)
  | none => (m, s)

/-- The fallible platform steps of `connectDevice`, in program order:
`device.gatt.connect()`, `getPrimaryService`, `getCharacteristic(write)`,
`writeValue(ENABLE_DATA)`, `getCharacteristic(notify)`,
`startNotifications`. -/
inductive HandshakeStep where
  | gattConnect
  | getService
  | getWriteChar
  | writeEnable
  | getNotifyChar
  | subscribe
deriving DecidableEq

/-- `connectDevice` from `mindsensor.ts`, parameterised by which
platform step (if any) rejects. Returns the new module state, the new
store state, and whether the call rethrew the platform error. On any
failure the `catch` block runs `store.setConnecting(undefined)` and
rethrows; on success `store.setConnected(device)` runs and the packet
state is reset. -/
def connectDevice (device : Device) (failing : Option HandshakeStep)
    (m : ModuleState) (s : MonitorState) : ModuleState × MonitorState × Bool :=
  let s₁ := if s.scanning then setScanning s false else s
  let s₂ := setConnecting s₁ (some device.id)
  match failing with
  | some _ => (m, setConnecting s₂ none, true)
  | none => (⟨none, false⟩, setConnected s₂ (some device), false)

/-! ## Operation sequences for the store-wide invariant -/

/-- One telemetry-store operation, as named by the series-length
invariant claim: a full-sample arrival, `startRecord`, `stopRecord`,
`clearData`, `disconnect` or `reset`. -/
inductive StoreOp where
  | fullData (data : SensorData) (now : ℕ)
  | start (now : ℕ)
  | stop
  | clear
  | disc
  | resetAll
deriving DecidableEq

/-- Interpreting one store operation. -/
def applyOp (s : MonitorState) (op : StoreOp) : MonitorState :=
  match op with
  | .fullData data now => onFullSensorData s data now
  | .start now => startRecord s now
  | .stop => stopRecord s
  | .clear => clearData s
  | .disc => storeDisconnect s
  | .resetAll => reset s

/-- Running a sequence of store operations from a state. -/
def runOps (s : MonitorState) (ops : List StoreOp) : MonitorState :=
  ops.foldl applyOp s

/-- The invariant of the series buffers: the ten series and the
`samples` sequence all have one common length. -/
def seriesBalanced (s : MonitorState) : Prop :=
  s.series.focus.length = s.samples.length ∧
  s.series.relax.length = s.samples.length ∧
  s.series.delta.length = s.samples.length ∧
  s.series.theta.length = s.samples.length ∧
  s.series.lowAlpha.length = s.samples.length ∧
  s.series.highAlpha.length = s.samples.length ∧
  s.series.lowBeta.length = s.samples.length ∧
  s.series.highBeta.length = s.samples.length ∧
  s.series.lowGamma.length = s.samples.length ∧
  s.series.highGamma.length = s.samples.length

instance (s : MonitorState) : Decidable (seriesBalanced s) := by
  unfold seriesBalanced; infer_instance

/-! ## Decoder lemmas -/

theorem decode_first_eq (d : List Byte) (hlen : 19 ≤ d.length) (hp : isFirstHeader d) :
    getSensorData d = some (.seg1 (decodeFirst d)) := by
  unfold getSensorData
  rw [if_neg (by omega), if_pos hp, if_neg (by omega)]

theorem decode_second_eq (d : List Byte) (hlen : 16 ≤ d.length) (hp : isSecondHeader d) :
    getSensorData d = some (.seg2 (decodeSecond d)) := by
  have hnf : ¬ isFirstHeader d := by
    rintro ⟨-, -, h2, -⟩
    rw [hp.2.2.1] at h2
    exact absurd h2 (by decide)
  unfold getSensorData
  rw [if_neg (by omega), if_neg hnf, if_pos hp, if_neg (by omega)]

theorem get3_eq_uint24 (d : List Byte) (i : ℕ) : get3 d i = uint24 d i := by
  unfold get3 uint24
  norm_num

theorem decodeFirst_eq_spec (d : List Byte) : decodeFirst d = specFirstSegment d := by
  unfold decodeFirst specFirstSegment
  rw [get3_eq_uint24, get3_eq_uint24, get3_eq_uint24, get3_eq_uint24]

/-- The worked example of spec §8: `AA 01 01 0F 00 45 3C` followed by
the three-byte big-endian encodings of 100, 30, 500, 700. -/
def exampleFirst : List Byte :=
  [0xAA, 0x01, 0x01, 0x0F, 0x00, 0x45, 0x3C,
   0x00, 0x00, 0x64, 0x00, 0x00, 0x1E, 0x00, 0x01, 0xF4, 0x00, 0x02, 0xBC]

/-- A well-formed second-segment frame encoding 11, 22, 33, 44. -/
def exampleSecond : List Byte :=
  [0xAA, 0x01, 0x02, 0x0C,
   0x00, 0x00, 0x0B, 0x00, 0x00, 0x16, 0x00, 0x00, 0x21, 0x00, 0x00, 0x2C]

/-- C1: a buffer of length ≥ 19 whose first four bytes are
`AA 01 01 0F` decodes to a `FirstSegment` whose fields are exactly the
§4.1 formulas: signal-quality = byte[4], focus = byte[5],
relax = byte[6], delta = round(uint24(bytes[7..10]) / 50 × 3),
theta = round(uint24(bytes[10..13]) / 3), lowAlpha = uint24(bytes[13..16]),
highAlpha = uint24(bytes[16..19]). -/
theorem spec_C1_first_segment_decode (d : List Byte) (hlen : 19 ≤ d.length)
    (hp : isFirstHeader d) :
    getSensorData d = some (.seg1 (specFirstSegment d)) := by
  rw [decode_first_eq d hlen hp, decodeFirst_eq_spec]

theorem specFirst_example :
    specFirstSegment exampleFirst =
      { sq := 0, focus := 69, relax := 60, delta := 6, theta := 10
        lowAlpha := 500, highAlpha := 700 } := by
  have u7 : uint24 exampleFirst 7 = 100 := by decide
  have u10 : uint24 exampleFirst 10 = 30 := by decide
  have u13 : uint24 exampleFirst 13 = 500 := by decide
  have u16 : uint24 exampleFirst 16 = 700 := by decide
  have b4 : (exampleFirst.getD 4 0).val = 0 := by decide
  have b5 : (exampleFirst.getD 5 0).val = 69 := by decide
  have b6 : (exampleFirst.getD 6 0).val = 60 := by decide
  unfold specFirstSegment
  rw [u7, u10, u13, u16, b4, b5, b6]
  norm_num [jsRound]

theorem decodeSecond_example : decodeSecond exampleSecond = ⟨11, 22, 33, 44⟩ := by
  decide

/-- C1 witness: the spec's worked example decodes to signalQuality = 0,
focus = 69, relax = 60, delta = 6, theta = 10, lowAlpha = 500,
highAlpha = 700. -/
theorem spec_C1_witness :
    19 ≤ exampleFirst.length ∧ isFirstHeader exampleFirst ∧
    getSensorData exampleFirst =
      some (.seg1 { sq := 0, focus := 69, relax := 60, delta := 6, theta := 10
                    lowAlpha := 500, highAlpha := 700 }) := by
  refine ⟨by decide, by decide, ?_⟩
  rw [spec_C1_first_segment_decode exampleFirst (by decide) (by decide), specFirst_example]

/-- C5: a buffer that is shorter than 4 bytes, carries an unknown
4-byte tag, or is shorter than the minimum length of its matched tag
(19 for the first segment, 16 for the second) decodes to `null`; the
total decoder never throws, and the notification handler emits nothing
and leaves its state unchanged on such a buffer. -/
theorem spec_C5_invalid_frames (d : List Byte)
    (h : d.length < 4 ∨ (¬ isFirstHeader d ∧ ¬ isSecondHeader d) ∨
      (isFirstHeader d ∧ d.length < 19) ∨ (isSecondHeader d ∧ d.length < 16)) :
    getSensorData d = none ∧
    ∀ m : ModuleState, handleCharacteristicValueChanged m d = (m, []) := by
  have hnone : getSensorData d = none := by
    by_cases hl : d.length < 4
    · unfold getSensorData
      rw [if_pos hl]
    · rcases h with h4 | ⟨hf, hs⟩ | ⟨hf, h19⟩ | ⟨hs, h16⟩
      · exact absurd h4 hl
      · unfold getSensorData
        rw [if_neg hl, if_neg hf, if_neg hs]
      · unfold getSensorData
        rw [if_neg hl, if_pos hf, if_pos h19]
      · have hnf : ¬ isFirstHeader d := by
          rintro ⟨-, -, h2, -⟩
          rw [hs.2.2.1] at h2
          exact absurd h2 (by decide)
        unfold getSensorData
        rw [if_neg hl, if_neg hnf, if_pos hs, if_pos h16]
  refine ⟨hnone, fun m => ?_⟩
  unfold handleCharacteristicValueChanged
  rw [hnone]

/-- A first-segment tag with only 6 bytes: a truncated frame. -/
def exampleTruncated : List Byte := [0xAA, 0x01, 0x01, 0x0F, 0x00, 0x00]

/-- C5 witness: a truncated first-segment frame decodes to `null` and
the notification handler drops it silently. -/
theorem spec_C5_witness :
    getSensorData exampleTruncated = none ∧
    handleCharacteristicValueChanged ⟨none, false⟩ exampleTruncated = (⟨none, false⟩, []) := by
  have h := spec_C5_invalid_frames exampleTruncated (by decide)
  exact ⟨h.1, h.2 ⟨none, false⟩⟩

/-! ## Reassembler lemmas -/

theorem handle_first_eq (m : ModuleState) (d : List Byte) (hlen : 19 ≤ d.length)
    (hp : isFirstHeader d) :
    handleCharacteristicValueChanged m d =
      (⟨some (decodeFirst d), true⟩,
       [.sensorData1 (decodeFirst d).sq (decodeFirst d).focus (decodeFirst d).relax]) := by
  unfold handleCharacteristicValueChanged
  rw [decode_first_eq d hlen hp]

theorem handle_second_merge_eq (m : ModuleState) (p : SensorData1) (d : List Byte)
    (hm : m.part1 = some p) (hh : m.isHalf = true)
    (hlen : 16 ≤ d.length) (hp : isSecondHeader d) :
    handleCharacteristicValueChanged m d =
      (⟨none, false⟩, [.fullSensorData (mergeSamples p (decodeSecond d))]) := by
  unfold handleCharacteristicValueChanged
  rw [decode_second_eq d hlen hp]
  simp only [hh, hm, if_true]

/-- C2: feeding a valid first-segment frame and then a valid
second-segment frame to the notification handler publishes exactly one
full sample to the store, that sample is the merge of the two decoded
segments (all 11 fields), and the partial-sample state is empty
immediately after the merge. -/
theorem spec_C2_reassembly (m : ModuleState) (b1 b2 : List Byte)
    (h1len : 19 ≤ b1.length) (h1p : isFirstHeader b1)
    (h2len : 16 ≤ b2.length) (h2p : isSecondHeader b2) :
    ((handleCharacteristicValueChanged m b1).2 ++
        (handleCharacteristicValueChanged (handleCharacteristicValueChanged m b1).1 b2).2).filter
      StoreEvent.isFull =
      [.fullSensorData (mergeSamples (decodeFirst b1) (decodeSecond b2))] ∧
    (handleCharacteristicValueChanged (handleCharacteristicValueChanged m b1).1 b2).1 =
      ⟨none, false⟩ := by
  rw [handle_first_eq m b1 h1len h1p]
  rw [handle_second_merge_eq ⟨some (decodeFirst b1), true⟩ (decodeFirst b1) b2 rfl rfl h2len h2p]
  simp [StoreEvent.isFull, List.filter]

/-- C2 witness: the two example frames merge into the full sample
(0, 69, 60, 6, 10, 500, 700, 11, 22, 33, 44) and the packet state ends
empty. -/
theorem spec_C2_witness :
    ((handleCharacteristicValueChanged ⟨none, false⟩ exampleFirst).2 ++
        (handleCharacteristicValueChanged
          (handleCharacteristicValueChanged ⟨none, false⟩ exampleFirst).1 exampleSecond).2).filter
      StoreEvent.isFull =
      [.fullSensorData ⟨0, 69, 60, 6, 10, 500, 700, 11, 22, 33, 44⟩] ∧
    (handleCharacteristicValueChanged
        (handleCharacteristicValueChanged ⟨none, false⟩ exampleFirst).1 exampleSecond).1 =
      ⟨none, false⟩ := by
  have h := spec_C2_reassembly ⟨none, false⟩ exampleFirst exampleSecond
    (by decide) (by decide) (by decide) (by decide)
  have hd1 : decodeFirst exampleFirst = ⟨0, 69, 60, 6, 10, 500, 700⟩ := by
    rw [decodeFirst_eq_spec, specFirst_example]
  rw [hd1, decodeSecond_example] at h
  exact h

/-! ## Store invariant: parallel buffer lengths -/

theorem seriesBalanced_initial : seriesBalanced initialState := by
  decide

theorem seriesBalanced_applyOp (s : MonitorState) (op : StoreOp) (h : seriesBalanced s) :
    seriesBalanced (applyOp s op) := by
  cases op with
  | fullData data now =>
      unfold applyOp onFullSensorData
      by_cases hr : s.isRecording
      · simp only [hr, if_true]
        unfold seriesBalanced at h ⊢
        simp only [List.length_append, List.length_cons, List.length_nil]
        omega
      · simp only [hr, if_false]
        exact h
  | start now => exact h
  | stop => exact h
  | clear =>
      unfold applyOp clearData seriesBalanced initialSeriesData
      simp
  | disc => exact h
  | resetAll =>
      unfold applyOp reset seriesBalanced initialSeriesData
      simp

theorem seriesBalanced_runOps (s : MonitorState) (h : seriesBalanced s) (ops : List StoreOp) :
    seriesBalanced (runOps s ops) := by
  induction ops generalizing s with
  | nil => exact h
  | cons op rest ih => exact ih (applyOp s op) (seriesBalanced_applyOp s op h)

/-- C4: after any sequence of store operations (full-sample arrivals,
`startRecord`, `stopRecord`, `clearData`, `disconnect`, `reset`, in any
interleaving) starting from the initial store, the ten series buffers
and the `samples` sequence all have equal length. -/
theorem spec_C4_series_lengths (ops : List StoreOp) :
    seriesBalanced (runOps initialState ops) :=
  seriesBalanced_runOps initialState seriesBalanced_initial ops

/-! ## Connection handshake failure (C3) -/

/-- A device with a nonempty id and a GATT server, for concrete runs. -/
def demoDevice : Device := ⟨"d", none, true⟩

/-- C3 counterexample: a connect attempt whose very first handshake step
(GATT connect) fails leaves `connectionState` at `connecting`; it is not
returned to `idle` as the claim states (`setConnecting(undefined)` only
clears `connectingId` and keeps the current `connectionState`). -/
theorem spec_C3_counterexample :
    (connectDevice demoDevice (some .gattConnect) ⟨none, false⟩
        initialState).2.1.connectionState = ConnState.connecting ∧
    ¬ (connectDevice demoDevice (some .gattConnect) ⟨none, false⟩
        initialState).2.1.connectionState = ConnState.idle := by
  decide

/-- C3 amended: when any handshake step fails, `connectDevice` rethrows
the failure to the caller, clears the connecting-device id, records no
connected device (the `connected` field is unchanged), and leaves the
module packet state untouched — but the `connectionState` field stays at
`connecting` instead of returning to `idle`. -/
theorem spec_C3_amended (device : Device) (hid : device.id ≠ "")
    (step : HandshakeStep) (m : ModuleState) (s : MonitorState) :
    (connectDevice device (some step) m s).2.2 = true ∧
    (connectDevice device (some step) m s).1 = m ∧
    (connectDevice device (some step) m s).2.1.connectingId = none ∧
    (connectDevice device (some step) m s).2.1.connectionState = ConnState.connecting ∧
    (connectDevice device (some step) m s).2.1.connected = s.connected := by
  have hj : jsTruthyStr (some device.id) = true := by
    simp [jsTruthyStr, bne_iff_ne, hid]
  unfold connectDevice
  by_cases hs : s.scanning <;>
    simp [hs, setScanning, setConnecting, jsTruthyStr, hj, bne_iff_ne, hid]

/-- C3 witness: the amended behaviour at a concrete failed connect. -/
theorem spec_C3_witness :
    (connectDevice demoDevice (some .writeEnable) ⟨none, false⟩ initialState).2.2 = true ∧
    (connectDevice demoDevice (some .writeEnable) ⟨none, false⟩ initialState).1 = ⟨none, false⟩ ∧
    (connectDevice demoDevice (some .writeEnable) ⟨none, false⟩
        initialState).2.1.connectingId = none ∧
    (connectDevice demoDevice (some .writeEnable) ⟨none, false⟩
        initialState).2.1.connectionState = ConnState.connecting ∧
    (connectDevice demoDevice (some .writeEnable) ⟨none, false⟩
        initialState).2.1.connected = initialState.connected :=
  spec_C3_amended demoDevice (by decide) .writeEnable ⟨none, false⟩ initialState

/-! ## Liveness watchdog (C6, C10) -/

theorem dropGuard_iff (s : MonitorState) (now : ℕ) :
    (s.connected.isSome && jsTruthyNum s.lastDataTs
        && decide (now - s.lastDataTs.getD 0 > 3000)) = true ↔
      (s.connected.isSome = true ∧ ∃ t, s.lastDataTs = some t ∧ t ≠ 0 ∧ now - t > 3000) := by
  cases hlt : s.lastDataTs with
  | none => simp [jsTruthyNum, hlt]
  | some t => simp [jsTruthyNum, hlt, bne_iff_ne, and_assoc]

/-- A state reachable by connecting, receiving one first segment at
t = 1000, then starting a scan while still holding the connection: the
`connected` device is still set but `connectionState` is `scanning`. -/
def silentScanState : MonitorState :=
  setScanning (onSensorData1 (setConnected initialState (some demoDevice)) 0 50 50 1000) true

/-- C6 counterexample: in `silentScanState` the connection is not in the
`Connected` state and `possibleDrop` is false, yet a watchdog tick 3501
ms after the last update sets `possibleDrop` — the code tests the
`connected` device field, not `connectionState == Connected`, so "in
every other case the tick leaves possibleDrop unchanged" fails. -/
theorem spec_C6_counterexample :
    silentScanState.connectionState ≠ ConnState.connected ∧
    silentScanState.possibleDrop = false ∧
    (checkDropConnection silentScanState 4501).possibleDrop = true := by
  decide

/-- C6 amended: a watchdog tick sets `possibleDrop` exactly when a
connected device handle is present (`connected` set), the last-update
timestamp is set (and nonzero), and more than 3000 ms have elapsed
since it; in every other case the tick leaves the state unchanged; and
any subsequent live-metric update (`onSensorData1` or
`onFullSensorData`) sets `possibleDrop` back to false. -/
theorem spec_C6_amended (s : MonitorState) (now : ℕ) :
    ((s.connected.isSome = true ∧ ∃ t, s.lastDataTs = some t ∧ t ≠ 0 ∧ now - t > 3000) →
      checkDropConnection s now = { s with possibleDrop := true }) ∧
    (¬ (s.connected.isSome = true ∧ ∃ t, s.lastDataTs = some t ∧ t ≠ 0 ∧ now - t > 3000) →
      checkDropConnection s now = s) ∧
    (∀ sq focus relax t, (onSensorData1 s sq focus relax t).possibleDrop = false) ∧
    (∀ data t, (onFullSensorData s data t).possibleDrop = false) := by
  refine ⟨?_, ?_, fun sq focus relax t => rfl, fun data t => ?_⟩
  · intro h
    unfold checkDropConnection
    rw [if_pos ((dropGuard_iff s now).mpr h)]
  · intro h
    unfold checkDropConnection
    rw [if_neg (fun hb => h ((dropGuard_iff s now).mp hb))]
  · unfold onFullSensorData
    by_cases hr : s.isRecording <;> simp [hr]

/-- The state after connecting and receiving one first segment at
t = 1000, still in the `Connected` state. -/
def connectedSilentState : MonitorState :=
  onSensorData1 (setConnected initialState (some demoDevice)) 0 50 50 1000

/-- C6 witness: 3501 ms of silence while connected flips
`possibleDrop`, and a live-metric update clears it. -/
theorem spec_C6_witness :
    checkDropConnection connectedSilentState 4501 =
      { connectedSilentState with possibleDrop := true } ∧
    (onSensorData1 { connectedSilentState with possibleDrop := true } 0 40 40 4600).possibleDrop =
      false :=
  ⟨(spec_C6_amended connectedSilentState 4501).1 ⟨by decide, 1000, by decide, by decide, by decide⟩,
   (spec_C6_amended { connectedSilentState with possibleDrop := true } 4600).2.2.1 0 40 40 4600⟩

/-- C10: while the last-update timestamp has never been set — as at
store creation and immediately after `reset` — a watchdog tick never
sets `possibleDrop` and leaves the whole state unchanged, no matter how
late the tick is or whether a device is connected. -/
theorem spec_C10_no_timestamp_no_drop (s : MonitorState) (now : ℕ)
    (h : s.lastDataTs = none) :
    checkDropConnection s now = s ∧
    ∀ now2, checkDropConnection (reset s) now2 = reset s := by
  constructor
  · unfold checkDropConnection
    rw [if_neg]
    simp [jsTruthyNum, h]
  · intro now2
    unfold checkDropConnection
    rw [if_neg]
    simp [jsTruthyNum, reset]

/-- C10 witness: a connected store that has never received data is left
unchanged by a tick 1,000,000 ms in. -/
theorem spec_C10_witness :
    (setConnected initialState (some demoDevice)).connected.isSome = true ∧
    (setConnected initialState (some demoDevice)).lastDataTs = none ∧
    checkDropConnection (setConnected initialState (some demoDevice)) 1000000 =
      setConnected initialState (some demoDevice) :=
  ⟨by decide, by decide,
   (spec_C10_no_timestamp_no_drop (setConnected initialState (some demoDevice)) 1000000
      (by decide)).1⟩

/-! ## Disconnect paths (C7, C9) -/

/-- C7: every disconnect — the unsolicited `gattserverdisconnected`
handler, or `disconnectDevice` whenever it has a target device with a
GATT server — moves `connectionState` to `idle`, clears the partial
sample (`part1`/`isHalf`), and clears `possibleDrop`, from any prior
state. -/
theorem spec_C7_disconnect_clears (m : ModuleState) (s : MonitorState) :
    (handleDisconnect m s).2.connectionState = ConnState.idle ∧
    (handleDisconnect m s).1 = ⟨none, false⟩ ∧
    (handleDisconnect m s).2.possibleDrop = false ∧
    ∀ (dOpt : Option Device) (target : Device),
      jsOrDevice dOpt s.connected = some target → target.hasGatt = true →
      (disconnectDevice dOpt m s).2.connectionState = ConnState.idle ∧
      (disconnectDevice dOpt m s).1 = ⟨none, false⟩ ∧
      (disconnectDevice dOpt m s).2.possibleDrop = false := by
  refine ⟨rfl, rfl, rfl, ?_⟩
  intro dOpt target htarget hgatt
  unfold disconnectDevice
  rw [htarget]
  simp [hgatt, storeDisconnect]

/-- C7 witness: caller-initiated disconnect from a scanning state with a
half-received frame pending clears everything. -/
theorem spec_C7_witness :
    (disconnectDevice (some demoDevice) ⟨some ⟨0, 1, 2, 3, 4, 5, 6⟩, true⟩
        (setScanning initialState true)).2.connectionState = ConnState.idle ∧
    (disconnectDevice (some demoDevice) ⟨some ⟨0, 1, 2, 3, 4, 5, 6⟩, true⟩
        (setScanning initialState true)).1 = ⟨none, false⟩ ∧
    (disconnectDevice (some demoDevice) ⟨some ⟨0, 1, 2, 3, 4, 5, 6⟩, true⟩
        (setScanning initialState true)).2.possibleDrop = false :=
  (spec_C7_disconnect_clears ⟨some ⟨0, 1, 2, 3, 4, 5, 6⟩, true⟩
      (setScanning initialState true)).2.2.2 (some demoDevice) demoDevice rfl rfl

/-- C9 (implicit): every disconnect also sets `isRecording` to false —
a disconnect during an active recording session silently ends it. -/
theorem spec_C9_disconnect_stops_recording (m : ModuleState) (s : MonitorState) :
    (handleDisconnect m s).2.isRecording = false ∧
    (storeDisconnect s).isRecording = false ∧
    ∀ (dOpt : Option Device) (target : Device),
      jsOrDevice dOpt s.connected = some target → target.hasGatt = true →
      (disconnectDevice dOpt m s).2.isRecording = false := by
  refine ⟨rfl, rfl, ?_⟩
  intro dOpt target htarget hgatt
  unfold disconnectDevice
  rw [htarget]
  simp [hgatt, storeDisconnect]

/-- C9 witness: a recording session is active, then an unsolicited
disconnect arrives, and the session is no longer active. -/
theorem spec_C9_witness :
    (startRecord initialState 0).isRecording = true ∧
    (handleDisconnect ⟨none, false⟩ (startRecord initialState 0)).2.isRecording = false :=
  ⟨rfl, (spec_C9_disconnect_stops_recording ⟨none, false⟩ (startRecord initialState 0)).1⟩

/-! ## Full-sample delivery (C8) -/

/-- C8: `onFullSensorData` always updates the live metrics
(`currentSensor`, `focus`, `relax`) and the last-update timestamp; when
a recording session is active it appends exactly one element to
`samples` and to each of the ten series; when inactive it leaves
`samples` and the series untouched. -/
theorem spec_C8_full_sample_effect (s : MonitorState) (data : SensorData) (now : ℕ) :
    (onFullSensorData s data now).currentSensor = some data ∧
    (onFullSensorData s data now).lastDataTs = some now ∧
    (onFullSensorData s data now).focus = data.focus ∧
    (onFullSensorData s data now).relax = data.relax ∧
    (s.isRecording = true →
      (onFullSensorData s data now).samples =
        s.samples ++ [{ t := now, focus := data.focus, relax := data.relax }] ∧
      (onFullSensorData s data now).series =
        { focus := s.series.focus ++ [data.focus]
          relax := s.series.relax ++ [data.relax]
          delta := s.series.delta ++ [data.delta]
          theta := s.series.theta ++ [data.theta]
          lowAlpha := s.series.lowAlpha ++ [data.lowAlpha]
          highAlpha := s.series.highAlpha ++ [data.highAlpha]
          lowBeta := s.series.lowBeta ++ [data.lowBeta]
          highBeta := s.series.highBeta ++ [data.highBeta]
          lowGamma := s.series.lowGamma ++ [data.lowGamma]
          highGamma := s.series.highGamma ++ [data.highGamma] }) ∧
    (s.isRecording = false →
      (onFullSensorData s data now).samples = s.samples ∧
      (onFullSensorData s data now).series = s.series) := by
  unfold onFullSensorData
  cases hr : s.isRecording <;> simp [hr]

/-- A full sample with distinct field values, for concrete runs. -/
def demoFull : SensorData := ⟨0, 1, 2, 3, 4, 5, 6, 7, 8, 9, 10⟩

/-- C8 witness: with a session active a concrete sample is appended;
live metrics are updated. -/
theorem spec_C8_witness :
    (onFullSensorData (startRecord initialState 0) demoFull 7).currentSensor = some demoFull ∧
    (onFullSensorData (startRecord initialState 0) demoFull 7).samples =
      [{ t := 7, focus := 1, relax := 2 }] := by
  have h := spec_C8_full_sample_effect (startRecord initialState 0) demoFull 7
  exact ⟨h.1, by rw [(h.2.2.2.2.1 rfl).1]; rfl⟩

end MindSensor
